import Mathlib

/-!
Shallow embedding of `app.py`, a single-screen Streamlit data-analysis app.
The script runs top to bottom on every interaction: it loads a dataset,
collects a plotting configuration from sidebar widgets, dispatches on the
chosen plot type to render exactly one chart / scalar / banner, and finally
always renders `data.describe()`.

We embed the part of the script guarded by `if data is not None:` (lines
48-164): the configuration derivation, the plot dispatch, and the summary
section, as a pure function from (Dataset, Config) to a list of rendered
outputs. Numeric cell values are modelled as real numbers.
-/

abbrev ColName := String

/-- A pandas column: numeric dtype or object (text) dtype. -/
inductive Column
  | numeric (vals : List ℝ)
  | text (vals : List String)

/-- The in-memory rectangular table (`data`): named columns in order. -/
structure Dataset where
  cols : List (ColName × Column)

/-- The nine options of the plot-type selectbox (app.py lines 52-56). -/
inductive PlotType
  | linePlot | barChart | histogram | scatterPlot | boxPlot
  | corrHeatmap | normalCurve | olsRegression | corrTwoCols
  deriving DecidableEq

/-- The selectbox label of each plot type (app.py lines 52-56). -/
def ptName : PlotType → String
  | .linePlot => "Line Plot"
  | .barChart => "Bar Chart"
  | .histogram => "Histogram"
  | .scatterPlot => "Scatter Plot"
  | .boxPlot => "Box Plot"
  | .corrHeatmap => "Correlation Heatmap"
  | .normalCurve => "Normal Distribution Curve"
  | .olsRegression => "OLS Regression"
  | .corrTwoCols => "Correlation Between Two Columns"

/-- The raw sidebar widget state (app.py lines 52-77).  Free-text widgets
(`st.text_input`) show a computed default; `none` in an override field means
the user left the default untouched, `some s` that they typed `s`. -/
structure Config where
  plot_type : PlotType
  x_col : ColName
  y_sel : ColName
  hue_col : Option ColName
  use_single_col : Bool
  single_column : ColName
  single_label_override : Option String
  title_override : Option String
  xlabel_override : Option String
  ylabel_override : Option String

/-- Line 67: `y_col = None` when single-column mode is on; otherwise the
Y selectbox value stands. -/
def yEff (cfg : Config) : Option ColName :=
  if cfg.use_single_col then none else some cfg.y_sel

/-- Line 68: the single-column custom label defaults to the column name. -/
def singleLabel (cfg : Config) : String :=
  cfg.single_label_override.getD cfg.single_column

/-- Line 74: the computed default plot title. -/
def defaultTitle (cfg : Config) : String :=
  if cfg.use_single_col then s!"{ptName cfg.plot_type} of {singleLabel cfg}"
  else s!"{ptName cfg.plot_type} of {cfg.x_col} vs {cfg.y_sel}"

/-- Line 75: the effective plot title. -/
def plotTitle (cfg : Config) : String :=
  cfg.title_override.getD (defaultTitle cfg)

/-- Line 76: the effective X-axis label (defaults to the X column name). -/
def xlabelEff (cfg : Config) : String :=
  cfg.xlabel_override.getD cfg.x_col

/-- Line 77: the effective Y-axis label. -/
def ylabelEff (cfg : Config) : String :=
  cfg.ylabel_override.getD
    (if cfg.use_single_col then singleLabel cfg else cfg.y_sel)

/-- Column lookup `data[c]`; the widgets only offer existing columns, so the
default is never reached in any reachable configuration. -/
def getColD (ds : Dataset) (c : ColName) : Column :=
  ((ds.cols.find? (fun p => p.1 == c)).map Prod.snd).getD (Column.numeric [])

/-- The numeric columns of the dataset, in order (what `data.corr()` and
`data.describe()` operate on). -/
def numericCols (ds : Dataset) : List (ColName × List ℝ) :=
  ds.cols.filterMap (fun p =>
    match p.2 with
    | .numeric xs => some (p.1, xs)
    | .text _ => none)

noncomputable section

/-- Arithmetic mean of a list. -/
def listMean (l : List ℝ) : ℝ := l.sum / l.length

/-- Deviations from the mean. -/
def devs (l : List ℝ) : List ℝ := l.map (fun x => x - listMean l)

/-- Sum of products of paired deviations (the shared kernel of covariance,
variance and the Pearson coefficient; the 1/(n-1) factors cancel in r). -/
def sdev (xs ys : List ℝ) : ℝ :=
  (((devs xs).zip (devs ys)).map (fun p => p.1 * p.2)).sum

/-- Pearson correlation coefficient, as computed by
`data[x_col].corr(data[y_col])` (line 155) on two numeric columns. -/
def pearson (xs ys : List ℝ) : ℝ :=
  sdev xs ys / Real.sqrt (sdev xs xs * sdev ys ys)

/-- The `:.4f` formatting of line 156, as a fixed-point integer: the
displayed digit string is determined by `round (r * 10000)`. -/
def fmt4 (r : ℝ) : ℤ := round (r * 10000)

/-- OLS slope of Y on X with an intercept (lines 133-134):
`sm.OLS(data[y_col], sm.add_constant(data[x_col])).fit()`. -/
def olsSlope (xs ys : List ℝ) : ℝ := sdev xs ys / sdev xs xs

/-- OLS intercept of Y on X. -/
def olsIntercept (xs ys : List ℝ) : ℝ :=
  listMean ys - olsSlope xs ys * listMean xs

/-- `np.linspace a b n`: `n` evenly spaced points from `a` to `b`
inclusive (line 125). -/
def linspace (a b : ℝ) (n : ℕ) : List ℝ :=
  (List.range n).map (fun i : ℕ => a + (b - a) * (i : ℝ) / ((n : ℝ) - 1))

/-- `scipy.stats.norm.pdf`: the standard normal density (line 126). -/
def stdNormalPdf (t : ℝ) : ℝ :=
  Real.exp (-(t ^ 2) / 2) / Real.sqrt (2 * Real.pi)

/-- Pairwise correlation matrix of the numeric columns (`data.corr()`,
line 120). -/
def corrMatrix (ds : Dataset) : List (List ℝ) :=
  (numericCols ds).map (fun a =>
    (numericCols ds).map (fun b => pearson a.2 b.2))

/-- Insert into a sorted list (ascending). -/
def insertSorted (x : ℝ) : List ℝ → List ℝ
  | [] => [x]
  | y :: ys => if x ≤ y then x :: y :: ys else y :: insertSorted x ys

/-- Sort ascending (how pandas computes order statistics). -/
def sortAsc : List ℝ → List ℝ
  | [] => []
  | x :: xs => insertSorted x (sortAsc xs)

/-- The `p`-quantile with linear interpolation between order statistics,
as `DataFrame.describe` reports the 25/50/75th percentiles. -/
def quantile (p : ℚ) (xs : List ℝ) : ℝ :=
  let s := sortAsc xs
  if s.length = 0 then 0 else
  let h : ℚ := p * ((s.length : ℚ) - 1)
  let k : ℕ := (⌊h⌋).toNat
  (s.getD k 0) + ((h - (k : ℚ) : ℚ) : ℝ) * (s.getD (k + 1) (s.getD k 0) - s.getD k 0)

/-- Minimum of a list (only applied to nonempty columns). -/
def listMin : List ℝ → ℝ
  | [] => 0
  | x :: xs => xs.foldl min x

/-- Maximum of a list (only applied to nonempty columns). -/
def listMax : List ℝ → ℝ
  | [] => 0
  | x :: xs => xs.foldl max x

/-- Sample standard deviation (ddof = 1), as pandas `describe` reports it. -/
def sampleStd (xs : List ℝ) : ℝ :=
  Real.sqrt (sdev xs xs / ((xs.length : ℝ) - 1))

/-- One row of the `data.describe()` table: the eight summary statistics
pandas reports for a numeric column. -/
structure DescStats where
  count : ℕ
  mean : ℝ
  std : ℝ
  min : ℝ
  q25 : ℝ
  q50 : ℝ
  q75 : ℝ
  max : ℝ

/-- The statistics `describe` reports for one numeric column. -/
def descStats (xs : List ℝ) : DescStats :=
  { count := xs.length
    mean := listMean xs
    std := sampleStd xs
    min := listMin xs
    q25 := quantile (1/4) xs
    q50 := quantile (1/2) xs
    q75 := quantile (3/4) xs
    max := listMax xs }

/-- `data.describe()` (line 164): the summary table over every numeric
column of the dataset, in column order. -/
def describe (ds : Dataset) : List (ColName × DescStats) :=
  (numericCols ds).map (fun p => (p.1, descStats p.2))

/-- An axis argument of a plotly-express call: a named dataframe column,
the row index, an absent (None / not passed) argument, or raw data. -/
inductive AxisArg
  | col (c : ColName)
  | index
  | absent

/-- A figure as built by the dispatch branches: one constructor per
plotly-express call shape used in app.py. -/
inductive Fig
  | pxLine (x y : AxisArg) (title : String)
  | pxBar (x y : AxisArg) (title : String)
  | pxHistogram (x y : AxisArg) (title : String)
  | pxScatter (x y : AxisArg) (title : String)
  | pxBox (x y : AxisArg) (title : String)
  | pxImshow (m : List (List ℝ)) (title : String)
  | pxLineData (xs ys : List ℝ) (title : String)
  | olsFig (x y : AxisArg) (title : String) (lineX lineY : List ℝ)

/-- One rendered element of the page, in render order: each constructor is
one `st.*` call of app.py. A `chart` records the figure plus the axis-label
overrides applied by `fig.update_layout` (`none`, `none` when no
`update_layout` was applied, as in the heatmap branch). -/
inductive Output
  | chart (fig : Fig) (xlab ylab : Option String)
  | subheader (s : String)
  | olsSummaryText (intercept slope : ℝ)
  | successCorr (x y : ColName) (r4 : ℤ)
  | warningMsg (s : String)
  | errorMsg (s : String)
  | describeTable (t : List (ColName × DescStats))

/-- Pass an optional column name the way Python passes `y_col` (which may
be `None`) as a keyword argument. -/
def optArg : Option ColName → AxisArg
  | none => AxisArg.absent
  | some c => AxisArg.col c

/-- The two-column guard of the OLS and correlation branches (lines 131
and 153): `not use_single_col and x_col and y_col and x_col != y_col`,
with Python string/None truthiness and `y_col` already cleared by
single-column mode. -/
def twoColGuard (cfg : Config) : Bool :=
  !cfg.use_single_col && cfg.x_col != "" && (yEff cfg).getD "" != ""
    && cfg.x_col != cfg.y_sel

/-- `sm.OLS(data[y_col], sm.add_constant(data[x_col])).fit()` inside the
`try` of lines 132-145: succeeds on two numeric columns, raises (a caught
exception) when either column has object dtype. Returns (intercept,
slope). -/
def fitOLS (xc yc : Column) : Except String (ℝ × ℝ) :=
  match xc, yc with
  | .numeric xs, .numeric ys => .ok (olsIntercept xs ys, olsSlope xs ys)
  | _, _ =>
    .error "Pandas data cast to numpy dtype of object. Check input data with np.asarray(data)."

/-- `data[x_col].corr(data[y_col])` inside the `try` of lines 154-156:
the Pearson coefficient on two numeric columns, a caught exception when
either column has object dtype. -/
def seriesCorr (xc yc : Column) : Except String ℝ :=
  match xc, yc with
  | .numeric xs, .numeric ys => .ok (pearson xs ys)
  | _, _ => .error "could not convert string to float"

/-- The plot dispatch (lines 82-160): given the dataset and the
configuration, the outputs the selected branch renders. -/
def dispatch (ds : Dataset) (cfg : Config) : List Output :=
  match cfg.plot_type with
  | .linePlot =>
    if cfg.use_single_col then
      [.chart (.pxLine .index (.col cfg.single_column) (plotTitle cfg))
        (some (xlabelEff cfg)) (some (ylabelEff cfg))]
    else
      [.chart (.pxLine (.col cfg.x_col) (.col cfg.y_sel) (plotTitle cfg))
        (some (xlabelEff cfg)) (some (ylabelEff cfg))]
  | .barChart =>
    if cfg.use_single_col then
      [.chart (.pxBar .index (.col cfg.single_column) (plotTitle cfg))
        (some (xlabelEff cfg)) (some (ylabelEff cfg))]
    else
      [.chart (.pxBar (.col cfg.x_col) (.col cfg.y_sel) (plotTitle cfg))
        (some (xlabelEff cfg)) (some (ylabelEff cfg))]
  | .histogram =>
    if cfg.use_single_col then
      [.chart (.pxHistogram (.col cfg.single_column) .absent (plotTitle cfg))
        (some (xlabelEff cfg)) (some (ylabelEff cfg))]
    else
      [.chart (.pxHistogram (.col cfg.x_col) (.col cfg.y_sel) (plotTitle cfg))
        (some (xlabelEff cfg)) (some (ylabelEff cfg))]
  | .scatterPlot =>
    [.chart (.pxScatter (.col cfg.x_col) (optArg (yEff cfg)) (plotTitle cfg))
      (some (xlabelEff cfg)) (some (ylabelEff cfg))]
  | .boxPlot =>
    if cfg.use_single_col then
      [.chart (.pxBox .absent (.col cfg.single_column) (plotTitle cfg))
        (some (xlabelEff cfg)) (some (ylabelEff cfg))]
    else
      [.chart (.pxBox (.col cfg.x_col) (.col cfg.y_sel) (plotTitle cfg))
        (some (xlabelEff cfg)) (some (ylabelEff cfg))]
  | .corrHeatmap =>
    [.chart (.pxImshow (corrMatrix ds) "Correlation Heatmap") none none]
  | .normalCurve =>
    [.chart (.pxLineData (linspace (-3) 3 100)
        ((linspace (-3) 3 100).map stdNormalPdf) (plotTitle cfg))
      (some (xlabelEff cfg)) (some (ylabelEff cfg))]
  | .olsRegression =>
    if twoColGuard cfg then
      match fitOLS (getColD ds cfg.x_col) (getColD ds cfg.y_sel) with
      | .ok (b0, b1) =>
        let xs := match getColD ds cfg.x_col with
          | .numeric v => v
          | .text _ => []
        [.chart (.olsFig (.col cfg.x_col) (.col cfg.y_sel) (plotTitle cfg)
            xs (xs.map (fun t => b0 + b1 * t)))
          (some (xlabelEff cfg)) (some (ylabelEff cfg)),
         .subheader "📄 OLS Regression Summary",
         .olsSummaryText b0 b1]
      | .error msg => [.errorMsg ("❌ Error fitting OLS model: " ++ msg)]
    else
      [.warningMsg "⚠️ Please select two **different** columns and uncheck 'Use just one column for plot'."]
  | .corrTwoCols =>
    if twoColGuard cfg then
      match seriesCorr (getColD ds cfg.x_col) (getColD ds cfg.y_sel) with
      | .ok r => [.successCorr cfg.x_col cfg.y_sel (fmt4 r)]
      | .error msg => [.errorMsg ("❌ Error computing correlation: " ++ msg)]
    else
      [.warningMsg "⚠️ Please make sure you selected two **different** columns and unchecked 'Use just one column for plot'."]

/-- Truncate a column to its first `n` entries (`data.head()`). -/
def colTake (n : ℕ) : Column → Column
  | .numeric xs => .numeric (xs.take n)
  | .text ss => .text (ss.take n)

/-- The body of the `if data is not None:` block (lines 48-164): the plot
output section followed, unconditionally, by the statistical summary. -/
def render (ds : Dataset) (cfg : Config) : List Output :=
  [Output.subheader "📊 Plot Output"]
    ++ dispatch ds cfg
    ++ [Output.subheader "📈 Statistical Summary",
        Output.describeTable (describe ds)]

end

/-! Concrete instances used by witnesses and counterexamples: a small
dataset with two numeric columns and one text column, and configurations
exercising the branches. -/

def dsEx : Dataset :=
  ⟨[("a", Column.numeric [1, 2, 3]), ("b", Column.numeric [2, 4, 6]),
    ("t", Column.text ["u", "v", "w"])]⟩

def cfgBase : Config :=
  { plot_type := .linePlot, x_col := "a", y_sel := "b", hue_col := none,
    use_single_col := false, single_column := "a",
    single_label_override := none, title_override := none,
    xlabel_override := none, ylabel_override := none }

def cfgCorrEx : Config := { cfgBase with plot_type := .corrTwoCols }

def cfgOlsSingle : Config :=
  { cfgBase with plot_type := .olsRegression, use_single_col := true }

def cfgHistSingle : Config :=
  { cfgBase with plot_type := .histogram, use_single_col := true }

def cfgScatSingle : Config :=
  { cfgBase with plot_type := .scatterPlot, use_single_col := true }

def cfgNormalEx : Config := { cfgBase with plot_type := .normalCurve }

def cfgHeatA : Config := { cfgBase with plot_type := .corrHeatmap }

def cfgHeatB : Config :=
  { cfgBase with
    plot_type := .corrHeatmap
    x_col := "b"
    y_sel := "a"
    title_override := some "My Title"
    xlabel_override := some "XX"
    ylabel_override := some "YY" }

def cfgOlsErr : Config :=
  { cfgBase with plot_type := .olsRegression, x_col := "t" }

/-! Helper lemmas shared by the claim theorems. -/

lemma linspace_getD (a b : ℝ) (n i : ℕ) (h : i < n) :
    (linspace a b n).getD i 0 = a + (b - a) * i / ((n : ℝ) - 1) := by
  rw [linspace, List.getD_eq_getElem?_getD, List.getElem?_map,
    List.getElem?_range h]
  rfl

lemma render_getLast (ds : Dataset) (cfg : Config) :
    (render ds cfg).getLast? = some (Output.describeTable (describe ds)) := by
  have h2 : ([Output.subheader "📈 Statistical Summary",
      Output.describeTable (describe ds)] : List Output) ≠ [] := by simp
  rw [render, List.getLast?_append_of_ne_nil _ h2]
  rfl

/-- C1: for every loaded dataset and every configuration in which the plot
type is "OLS Regression" or "Correlation Between Two Columns" and either
the X and Y selections coincide or single-column mode is enabled, the
dispatcher performs no fitting or correlation computation and emits only
the branch's warning banner, regardless of dataset content (app.py lines
130-149 and 152-160). -/
theorem claim_C1_invalid_pair_warns (ds : Dataset) (cfg : Config)
    (hpt : cfg.plot_type = PlotType.olsRegression
      ∨ cfg.plot_type = PlotType.corrTwoCols)
    (hbad : cfg.use_single_col = true ∨ cfg.x_col = cfg.y_sel) :
    dispatch ds cfg
      = [Output.warningMsg (if cfg.plot_type = PlotType.olsRegression then
          "⚠️ Please select two **different** columns and uncheck 'Use just one column for plot'."
        else
          "⚠️ Please make sure you selected two **different** columns and unchecked 'Use just one column for plot'.")] := by
  have hg : twoColGuard cfg = false := by
    rcases hbad with h | h <;> simp [twoColGuard, h]
  rcases hpt with h | h <;> simp [dispatch, h, hg]

/-- C1 witness: with OLS Regression selected and single-column mode on,
over the concrete example dataset, the branch renders exactly the warning
banner. -/
theorem claim_C1_witness :
    dispatch dsEx cfgOlsSingle
      = [Output.warningMsg "⚠️ Please select two **different** columns and uncheck 'Use just one column for plot'."] := by
  have h := claim_C1_invalid_pair_warns dsEx cfgOlsSingle (Or.inl rfl) (Or.inl rfl)
  rw [h]
  rfl

/-- C2: for every pair of distinct, nonempty-named numeric columns X and Y
selected with single-column mode off, the "Correlation Between Two
Columns" branch renders exactly the success banner carrying the Pearson
correlation coefficient of the two columns formatted to four decimal
places (`fmt4`); in particular, on columns [1,2,3] and [2,4,6] the
displayed value is 1.0000 (encoded as the fixed-point integer 10000).
Column names produced by the loader are nonempty (pandas renames blank
CSV headers), which is what the code's Python truthiness test
`x_col and y_col` relies on. -/
theorem claim_C2_corr_displays_pearson (ds : Dataset) (cfg : Config)
    (xs ys : List ℝ)
    (hpt : cfg.plot_type = PlotType.corrTwoCols)
    (hs : cfg.use_single_col = false)
    (hx : cfg.x_col ≠ "") (hy : cfg.y_sel ≠ "")
    (hxy : cfg.x_col ≠ cfg.y_sel)
    (hcx : getColD ds cfg.x_col = Column.numeric xs)
    (hcy : getColD ds cfg.y_sel = Column.numeric ys) :
    dispatch ds cfg
        = [Output.successCorr cfg.x_col cfg.y_sel (fmt4 (pearson xs ys))]
      ∧ fmt4 (pearson [1, 2, 3] [2, 4, 6]) = 10000 := by
  constructor
  · have hg : twoColGuard cfg = true := by
      simp [twoColGuard, yEff, hs, hx, hy, hxy]
    simp [dispatch, hpt, hg, hcx, hcy, seriesCorr]
  · have h1 : sdev ([1, 2, 3] : List ℝ) [2, 4, 6] = 4 := by
      simp [sdev, devs, listMean]; norm_num
    have h2 : sdev ([1, 2, 3] : List ℝ) [1, 2, 3] = 2 := by
      simp [sdev, devs, listMean]; norm_num
    have h3 : sdev ([2, 4, 6] : List ℝ) [2, 4, 6] = 8 := by
      simp [sdev, devs, listMean]; norm_num
    have hp : pearson ([1, 2, 3] : List ℝ) [2, 4, 6] = 1 := by
      rw [pearson, h1, h2, h3,
        show (2 : ℝ) * 8 = 4 ^ 2 by norm_num,
        Real.sqrt_sq (by norm_num : (0 : ℝ) ≤ 4)]
      norm_num
    rw [hp, fmt4, show (1 : ℝ) * 10000 = ((10000 : ℕ) : ℝ) by norm_num,
      round_natCast]
    norm_num

/-- C2 witness: on the example dataset with columns a = [1,2,3] and
b = [2,4,6], the branch displays the correlation 1.0000. -/
theorem claim_C2_witness :
    dispatch dsEx cfgCorrEx = [Output.successCorr "a" "b" 10000] := by
  have h := claim_C2_corr_displays_pearson dsEx cfgCorrEx [1, 2, 3] [2, 4, 6]
    rfl rfl (by decide) (by decide) (by decide) rfl rfl
  rw [h.1, h.2]
  rfl

/-- C3: for every dataset and configuration with plot type "Normal
Distribution Curve", the rendered chart is the line chart of the 100
points `linspace (-3) 3 100` with the standard normal density as
y-values: the x-list has length 100, starts at -3, ends at 3, and has
constant spacing 6/99. The data lists in the rendered chart are closed
terms mentioning neither the dataset nor any column selection, so the
plotted points are identical for all datasets and selections (app.py
lines 124-128). -/
theorem claim_C3_normal_curve_fixed_points (ds : Dataset) (cfg : Config)
    (hpt : cfg.plot_type = PlotType.normalCurve) :
    dispatch ds cfg
        = [Output.chart (Fig.pxLineData (linspace (-3) 3 100)
            ((linspace (-3) 3 100).map stdNormalPdf) (plotTitle cfg))
            (some (xlabelEff cfg)) (some (ylabelEff cfg))]
      ∧ (linspace (-3) 3 100).length = 100
      ∧ (linspace (-3) 3 100).getD 0 0 = -3
      ∧ (linspace (-3) 3 100).getD 99 0 = 3
      ∧ (∀ i : ℕ, i + 1 < 100 →
          (linspace (-3) 3 100).getD (i + 1) 0
            - (linspace (-3) 3 100).getD i 0 = 6 / 99) := by
  refine ⟨by simp [dispatch, hpt], ?_, ?_, ?_, ?_⟩
  · rw [linspace, List.length_map, List.length_range]
  · rw [linspace_getD _ _ _ _ (by norm_num : 0 < 100)]; norm_num
  · rw [linspace_getD _ _ _ _ (by norm_num : 99 < 100)]; norm_num
  · intro i h
    rw [linspace_getD _ _ _ _ h, linspace_getD _ _ _ _ (by omega : i < 100)]
    push_cast
    ring

/-- C3 witness: on the example dataset with the normal-curve
configuration, the chart is exactly the fixed 100-point curve and the
last x-value is 3. -/
theorem claim_C3_witness :
    dispatch dsEx cfgNormalEx
        = [Output.chart (Fig.pxLineData (linspace (-3) 3 100)
            ((linspace (-3) 3 100).map stdNormalPdf) (plotTitle cfgNormalEx))
            (some (xlabelEff cfgNormalEx)) (some (ylabelEff cfgNormalEx))]
      ∧ (linspace (-3) 3 100).getD 99 0 = 3 := by
  have h := claim_C3_normal_curve_fixed_points dsEx cfgNormalEx rfl
  exact ⟨h.1, h.2.2.2.1⟩

/-- C4: for every dataset and every configuration — including those where
the dispatcher only emitted a warning banner — the last rendered element
of the interaction is the descriptive-statistics table, and that table
has one row per numeric column of the dataset, each row carrying count,
mean, std, min and the 25/50/75th percentiles and max (app.py lines
162-164, rendered unconditionally inside the `data is not None` block). -/
theorem claim_C4_summary_always_last (ds : Dataset) (cfg : Config) :
    (render ds cfg).getLast? = some (Output.describeTable (describe ds))
      ∧ (describe ds).map Prod.fst = (numericCols ds).map Prod.fst
      ∧ ∀ p ∈ describe ds, ∃ xs, (p.1, xs) ∈ numericCols ds
          ∧ p.2 = descStats xs := by
  refine ⟨render_getLast ds cfg, by simp [describe], ?_⟩
  intro p hp
  rw [describe, List.mem_map] at hp
  obtain ⟨q, hq, rfl⟩ := hp
  exact ⟨q.2, by simpa using hq, rfl⟩

/-- C5: whenever single-column mode is enabled, the effective Y selection
is cleared to `none` before any dispatch branch runs (app.py line 67), the
default plot title takes the single-column form (line 74), and the whole
rendered page is independent of the Y selectbox value. -/
theorem claim_C5_single_mode_clears_y (ds : Dataset) (cfg : Config)
    (y' : ColName) (h : cfg.use_single_col = true) :
    yEff cfg = none
      ∧ defaultTitle cfg = s!"{ptName cfg.plot_type} of {singleLabel cfg}"
      ∧ render ds cfg = render ds { cfg with y_sel := y' } := by
  refine ⟨by simp [yEff, h], by simp [defaultTitle, h], ?_⟩
  rw [render, render]
  cases hpt : cfg.plot_type <;>
    simp [dispatch, hpt, h, twoColGuard, plotTitle, defaultTitle, xlabelEff,
      ylabelEff, yEff, singleLabel, optArg]

/-- C5 witness: on the concrete single-column histogram configuration,
the effective Y selection is cleared, the default title is the
single-column form, and swapping the Y selectbox value leaves the page
unchanged. -/
theorem claim_C5_witness :
    yEff cfgHistSingle = none
      ∧ defaultTitle cfgHistSingle
          = s!"{ptName cfgHistSingle.plot_type} of {singleLabel cfgHistSingle}"
      ∧ render dsEx cfgHistSingle
          = render dsEx { cfgHistSingle with y_sel := "zz" } :=
  claim_C5_single_mode_clears_y dsEx cfgHistSingle "zz" rfl

/-- C6: the "Correlation Heatmap" branch renders the pairwise correlation
matrix of the dataset with the fixed title "Correlation Heatmap" and no
axis-label overrides, and its output is identical for any two
configurations over the same dataset — it ignores the X/Y selections and
the custom title and labels entirely (app.py lines 119-122). -/
theorem claim_C6_heatmap_ignores_selection (ds : Dataset) (cfg cfg' : Config)
    (h : cfg.plot_type = PlotType.corrHeatmap)
    (h' : cfg'.plot_type = PlotType.corrHeatmap) :
    dispatch ds cfg
        = [Output.chart (Fig.pxImshow (corrMatrix ds) "Correlation Heatmap")
            none none]
      ∧ dispatch ds cfg = dispatch ds cfg' := by
  constructor
  · simp [dispatch, h]
  · simp [dispatch, h, h']

/-- C6 witness: two heatmap configurations over the example dataset that
differ in X/Y selection, title and both axis labels produce the same
rendered heatmap, which carries no custom labels. -/
theorem claim_C6_witness :
    dispatch dsEx cfgHeatA
        = [Output.chart (Fig.pxImshow (corrMatrix dsEx) "Correlation Heatmap")
            none none]
      ∧ dispatch dsEx cfgHeatA = dispatch dsEx cfgHeatB :=
  claim_C6_heatmap_ignores_selection dsEx cfgHeatA cfgHeatB rfl rfl

/-- C7 counterexample: with single-column mode enabled and plot type
"Histogram" over the example dataset, the dispatched plot call does not
pass any column as a Y / weighting argument — refuting the claim that the
single-column Histogram path passes a secondary column as a weighting
argument (app.py line 100 passes only `x=single_column`). -/
theorem claim_C7_counterexample :
    ¬ ∃ (xarg : AxisArg) (c : ColName) (t : String) (xl yl : Option String),
      dispatch dsEx cfgHistSingle
        = [Output.chart (Fig.pxHistogram xarg (AxisArg.col c) t) xl yl] := by
  rintro ⟨xarg, c, t, xl, yl, h⟩
  have h0 : dispatch dsEx cfgHistSingle
      = [Output.chart
          (Fig.pxHistogram (AxisArg.col "a") AxisArg.absent
            (plotTitle cfgHistSingle))
          (some (xlabelEff cfgHistSingle)) (some (ylabelEff cfgHistSingle))] := rfl
  rw [h0] at h
  simp at h

/-- C7 amended: the single-column Histogram path passes only the selected
single column and no weighting argument; it is the two-column Histogram
path that passes the Y selection as the second (aggregation/weighting)
argument (app.py lines 98-104). -/
theorem claim_C7_single_histogram_one_column (ds : Dataset) (cfg : Config)
    (hpt : cfg.plot_type = PlotType.histogram) :
    (cfg.use_single_col = true →
      dispatch ds cfg
        = [Output.chart
            (Fig.pxHistogram (AxisArg.col cfg.single_column) AxisArg.absent
              (plotTitle cfg))
            (some (xlabelEff cfg)) (some (ylabelEff cfg))])
    ∧ (cfg.use_single_col = false →
      dispatch ds cfg
        = [Output.chart
            (Fig.pxHistogram (AxisArg.col cfg.x_col) (AxisArg.col cfg.y_sel)
              (plotTitle cfg))
            (some (xlabelEff cfg)) (some (ylabelEff cfg))]) := by
  constructor <;> intro h <;> simp [dispatch, hpt, h]

/-- C7 witness: on the concrete single-column histogram configuration the
plot call carries only column "a" and an absent weighting argument. -/
theorem claim_C7_witness :
    dispatch dsEx cfgHistSingle
      = [Output.chart
          (Fig.pxHistogram (AxisArg.col "a") AxisArg.absent
            (plotTitle cfgHistSingle))
          (some (xlabelEff cfgHistSingle)) (some (ylabelEff cfgHistSingle))] :=
  (claim_C7_single_histogram_one_column dsEx cfgHistSingle rfl).1 rfl

/-- C8: for every valid OLS configuration (guard passed), if fitting the
ordinary-least-squares model of Y on X raises, the exception is caught
and converted to an error banner carrying the underlying message, the
branch renders nothing else, and the descriptive-statistics table still
renders as the last element of the page (app.py lines 130-147 and
162-164). -/
theorem claim_C8_ols_error_caught (ds : Dataset) (cfg : Config)
    (msg : String)
    (hpt : cfg.plot_type = PlotType.olsRegression)
    (hg : twoColGuard cfg = true)
    (herr : fitOLS (getColD ds cfg.x_col) (getColD ds cfg.y_sel)
      = .error msg) :
    dispatch ds cfg = [Output.errorMsg ("❌ Error fitting OLS model: " ++ msg)]
      ∧ (render ds cfg).getLast?
          = some (Output.describeTable (describe ds)) := by
  exact ⟨by simp [dispatch, hpt, hg, herr], render_getLast ds cfg⟩

/-- C8 witness: selecting the text column "t" as X for OLS Regression on
the example dataset yields the caught-and-reported fitting error, and the
summary table still renders last. -/
theorem claim_C8_witness :
    dispatch dsEx cfgOlsErr
        = [Output.errorMsg ("❌ Error fitting OLS model: "
            ++ "Pandas data cast to numpy dtype of object. Check input data with np.asarray(data).")]
      ∧ (render dsEx cfgOlsErr).getLast?
          = some (Output.describeTable (describe dsEx)) :=
  claim_C8_ols_error_caught dsEx cfgOlsErr
    "Pandas data cast to numpy dtype of object. Check input data with np.asarray(data)."
    rfl rfl rfl

/-- C9: the hue/group selection is never consumed by any dispatch branch:
two configurations differing only in the hue selection render identical
pages over any dataset (app.py line 62 is the only mention of hue_col). -/
theorem claim_C9_hue_never_consumed (ds : Dataset) (cfg : Config)
    (h h' : Option ColName) :
    render ds { cfg with hue_col := h } = render ds { cfg with hue_col := h' } :=
  rfl

/-- C10: the "Scatter Plot" branch has no single-column guard: with
single-column mode enabled it still dispatches the scatter call, passing
the cleared (absent) Y argument, and emits no warning banner (app.py
lines 106-109, with y_col cleared at line 67). -/
theorem claim_C10_scatter_unguarded (ds : Dataset) (cfg : Config)
    (hpt : cfg.plot_type = PlotType.scatterPlot)
    (hs : cfg.use_single_col = true) :
    dispatch ds cfg
        = [Output.chart
            (Fig.pxScatter (AxisArg.col cfg.x_col) AxisArg.absent
              (plotTitle cfg))
            (some (xlabelEff cfg)) (some (ylabelEff cfg))]
      ∧ ∀ s, Output.warningMsg s ∉ dispatch ds cfg := by
  have h1 : dispatch ds cfg
      = [Output.chart
          (Fig.pxScatter (AxisArg.col cfg.x_col) AxisArg.absent
            (plotTitle cfg))
          (some (xlabelEff cfg)) (some (ylabelEff cfg))] := by
    simp [dispatch, hpt, yEff, hs, optArg]
  exact ⟨h1, fun s => by rw [h1]; simp⟩

/-- C10 witness: the concrete single-column scatter configuration over the
example dataset dispatches a scatter chart with an absent Y argument and
renders no warning banner. -/
theorem claim_C10_witness :
    dispatch dsEx cfgScatSingle
        = [Output.chart
            (Fig.pxScatter (AxisArg.col "a") AxisArg.absent
              (plotTitle cfgScatSingle))
            (some (xlabelEff cfgScatSingle)) (some (ylabelEff cfgScatSingle))]
      ∧ Output.warningMsg "⚠️ no warning" ∉ dispatch dsEx cfgScatSingle := by
  have h := claim_C10_scatter_unguarded dsEx cfgScatSingle rfl rfl
  exact ⟨h.1, h.2 "⚠️ no warning"⟩
